import Mathlib

/-!
Verification of the pystep7 S7-communication client against its
specification.  Shallow embedding of the data codec
(src/pystep7/utility.py), the tag record (src/pystep7/tag.py), the wire
constants (src/pystep7/constants.py) and the framing, batching and
reassembly loops of src/pystep7/Client.py.  Machine integers are Nat/Int
with the masks and remainders written out; fallible code returns
Except/Option.
-/

namespace PyStep7

set_option maxRecDepth 8000

/-! ### Definitions: constants (constants.py) -/

/-- DataType codes (constants.py lines 55-75), the ones referenced here. -/
def DataType.BIT : Nat := 0x01

/-- DataType code BYTE (constants.py line 58). -/
def DataType.BYTE : Nat := 0x02

/-- DataType code INT (constants.py line 61). -/
def DataType.INT : Nat := 0x05

/-- DataType code STRING (constants.py line 70). -/
def DataType.STRING : Nat := 0x13

/-- DataType code COUNTER (constants.py line 71). -/
def DataType.COUNTER : Nat := 0x1C

/-- DataType code TIMER (constants.py line 72). -/
def DataType.TIMER : Nat := 0x1D

/-- Per-item success code (constants.py line 162). -/
def ReturnCode.SUCCESS : Nat := 0xFF

/-- Final-fragment marker of a user-data reply (constants.py line 91). -/
def LastDataUnit.YES : Nat := 0x00

/-- COTP Connect-Confirm PDU type (constants.py line 34). -/
def COTP.CONNECT_CONFIRM : Nat := 0xD0

/-! ### Definitions: BCD and counter codec (utility.py) -/

/-- BCD helper bcd_to_byte (utility.py line 234).  In Python, shifting an
arbitrary-precision int right by 4 is a floor division by 16 and the bitwise
AND with 0x0F is the nonnegative remainder mod 16, hence Int.fdiv and
Int.emod. -/
def bcd_to_byte (B : Int) : Int := (Int.fdiv B 16) * 10 + Int.emod B 16

/-- BCD helper byte_to_bcd (utility.py line 238): the bitwise or of the
shifted tens digit with the units digit equals their sum because the
shifted value has a zero low nibble and the remainder is below 16. -/
def byte_to_bcd (Value : Int) : Int := (Int.fdiv Value 10) * 16 + Int.emod Value 10

/-- byte_to_nibbles (utility.py line 242): mask to a byte, split nibbles. -/
def byte_to_nibbles (Value : Nat) : Nat × Nat := (Value % 256 / 16, Value % 256 % 16)

/-- set_counter (utility.py line 417): hundreds digit BCD in the low byte,
the two low digits BCD in the high byte. -/
def set_counter (Value : Int) : Int :=
  byte_to_bcd (Int.fdiv Value 100) + byte_to_bcd (Int.emod Value 100) * 256

/-- get_counter (utility.py line 413).  Note that bcd_to_byte is applied to
the whole 16-bit word, not to its low byte. -/
def get_counter (Value : Int) : Int :=
  bcd_to_byte Value * 100 + bcd_to_byte (Int.fdiv Value 256)

/-- struct.pack with format >H: big-endian unsigned 16-bit (the argument is
below 65536 wherever this is used). -/
def packU16BE (v : Nat) : List Nat := [v / 256 % 256, v % 256]

/-- struct.unpack_from with format >h: big-endian signed 16-bit. -/
def unpackI16BE (data : List Nat) (offset : Nat) : Int :=
  if 256 * data.getD offset 0 + data.getD (offset + 1) 0 < 32768 then
    ((256 * data.getD offset 0 + data.getD (offset + 1) 0 : Nat) : Int)
  else
    ((256 * data.getD offset 0 + data.getD (offset + 1) 0 : Nat) : Int) - 65536

/-- The DataType.COUNTER branch of utility.encode (utility.py lines
170-171): pack set_counter of the absolute value with format >H. -/
def encode_counter (value : Int) : List Nat :=
  packU16BE (set_counter (Int.natAbs value : Int)).toNat

/-- The DataType.COUNTER branch of utility.decode (utility.py lines 78-83,
106 and 116-117): unpack a big-endian signed 16-bit word at the offset, then
apply get_counter. -/
def decode_counter (data : List Nat) (offset : Nat) : Int :=
  get_counter (unpackI16BE data offset)

/-! ### Definitions: S5TIME codec (utility.py) -/

/-- Length of the decimal representation of a Nat, that is Python
len(str(v)) for a nonnegative v; written with a structural fuel argument so
that it reduces in the kernel. -/
def pyDecimalLenAux : Nat → Nat → Nat
  | 0, _ => 1
  | fuel + 1, n => if n < 10 then 1 else 1 + pyDecimalLenAux fuel (n / 10)

/-- Python len(str(n)) for a Nat. -/
def pyDecimalLen (n : Nat) : Nat := pyDecimalLenAux n n

/-- set_s5_time (utility.py lines 321-333).  The value is divided by 10; if
the result has more than three decimal digits it is divided down to three
digits and the number of divisions becomes the leading (decade-multiplier)
digit.  bytearray.fromhex of the four digits right-justified with zeros
packs one decimal digit per nibble; this is faithful whenever the adjusted
value has at most four digits, which holds for all inputs handled by the
source without raising. -/
def set_s5_time (Value : Nat) : List Nat :=
  let v1 := Value / 10
  let modLen := pyDecimalLen v1 - 3
  let v2 := if 0 < modLen then v1 / 10 ^ modLen + 1000 * modLen else v1
  [16 * (v2 / 1000 % 10) + v2 / 100 % 10, 16 * (v2 / 10 % 10) + v2 % 10]

/-- get_s5_time (utility.py lines 315-318). -/
def get_s5_time (buffer : List Nat) (offset : Nat := 0) : Int :=
  ((10 ^ (byte_to_nibbles (buffer.getD (offset + 0) 0)).1 : Nat) : Int) *
    (((byte_to_nibbles (buffer.getD (offset + 0) 0)).2 : Int) * 1000 +
      bcd_to_byte ((buffer.getD (offset + 1) 0 : Nat) : Int) * 10)

/-! ### Definitions: DATETIME codec (utility.py) -/

/-- Python datetime.datetime value record (year, month, day, hour, minute,
second, microsecond), as constructed by utility.get_datetime. -/
structure PyDateTime where
  year : Int
  month : Int
  day : Int
  hour : Int
  minute : Int
  second : Int
  microsecond : Int
deriving DecidableEq

/-- Gregorian leap-year rule used by the Python datetime module. -/
def isLeapYear (y : Int) : Bool := (y % 4 == 0 && y % 100 != 0) || y % 400 == 0

/-- Days in a month of the proleptic Gregorian calendar. -/
def daysInMonth (y m : Int) : Int :=
  if m = 2 then (if isLeapYear y then 29 else 28)
  else if m = 4 ∨ m = 6 ∨ m = 9 ∨ m = 11 then 30
  else 31

/-- Range checks of the CPython datetime constructor; utility.get_datetime
falls back to 1990-01-01 exactly when these fail (the bare except at
utility.py line 471). -/
def pyDateTimeValid (d : PyDateTime) : Prop :=
  1 ≤ d.year ∧ d.year ≤ 9999 ∧
  1 ≤ d.month ∧ d.month ≤ 12 ∧
  1 ≤ d.day ∧ d.day ≤ daysInMonth d.year d.month ∧
  0 ≤ d.hour ∧ d.hour ≤ 23 ∧
  0 ≤ d.minute ∧ d.minute ≤ 59 ∧
  0 ≤ d.second ∧ d.second ≤ 59 ∧
  0 ≤ d.microsecond ∧ d.microsecond ≤ 999999

instance (d : PyDateTime) : Decidable (pyDateTimeValid d) := by
  unfold pyDateTimeValid; infer_instance

/-- The field extraction of get_datetime (utility.py lines 456-468): BCD
year windowed below 90 to 2000+, else 1900+; BCD month, day, hour, minute
and second; milliseconds from the BCD of byte 6 times ten plus the BCD of
byte 7 floor-divided by ten. -/
def get_datetime_fields (buffer : List Nat) (offset : Nat) : PyDateTime :=
  { year :=
      if bcd_to_byte ((buffer.getD (offset + 0) 0 : Nat) : Int) < 90 then
        bcd_to_byte ((buffer.getD (offset + 0) 0 : Nat) : Int) + 2000
      else
        bcd_to_byte ((buffer.getD (offset + 0) 0 : Nat) : Int) + 1900
    month := bcd_to_byte ((buffer.getD (offset + 1) 0 : Nat) : Int)
    day := bcd_to_byte ((buffer.getD (offset + 2) 0 : Nat) : Int)
    hour := bcd_to_byte ((buffer.getD (offset + 3) 0 : Nat) : Int)
    minute := bcd_to_byte ((buffer.getD (offset + 4) 0 : Nat) : Int)
    second := bcd_to_byte ((buffer.getD (offset + 5) 0 : Nat) : Int)
    microsecond :=
      (bcd_to_byte ((buffer.getD (offset + 6) 0 : Nat) : Int) * 10 +
        Int.fdiv (bcd_to_byte ((buffer.getD (offset + 7) 0 : Nat) : Int)) 10) * 1000 }

/-- get_datetime (utility.py lines 456-472): build the datetime from the BCD
fields, falling back to 1990-01-01 when the constructor would raise. -/
def get_datetime (buffer : List Nat) (offset : Nat := 0) : PyDateTime :=
  if pyDateTimeValid (get_datetime_fields buffer offset) then
    get_datetime_fields buffer offset
  else
    ⟨1990, 1, 1, 0, 0, 0, 0⟩

/-! ### Definitions: frames and byte helpers -/

/-- struct.unpack_from with format >H: big-endian unsigned 16-bit read. -/
def u16BE (data : List Nat) (i : Nat) : Nat := 256 * data.getD i 0 + data.getD (i + 1) 0

/-- The ISO Connection Request telegram ISO_CR (constants.py lines 287-312). -/
def ISO_CR : List Nat :=
  [0x03, 0x00, 0x00, 0x16,
   0x11, 0xE0, 0x00, 0x00, 0x00, 0x01, 0x00,
   0xC0, 0x01, 0x0A,
   0xC1, 0x02, 0x01, 0x00,
   0xC2, 0x02, 0x01, 0x02]

/-- The request built by iso_connect (Client.py lines 252-258) after
set_connection_parameters (lines 242-248) masked the TSAPs to 16 bits and
split them into high and low bytes, patched into ISO_CR at offsets 16, 17
(local) and 20, 21 (remote). -/
def iso_connect_request (LocalTSAP RemoteTSAP : Nat) : List Nat :=
  ((((ISO_CR.set 16 (LocalTSAP % 65536 / 256)).set 17 (LocalTSAP % 65536 % 256)).set
      20 (RemoteTSAP % 65536 / 256)).set 21 (RemoteTSAP % 65536 % 256))

/-- The reply handling of iso_connect (Client.py lines 259-271): unpack the
TPKT length at offset 2 (a struct error if the reply has fewer than 4
bytes); when it reads 22, unpack the COTP PDU type at offset 5 (a struct
error below 6 bytes) and succeed only on Connect-Confirm; every other
outcome raises, leaving the connection out of the ISO-connected state. -/
def iso_connect_response (data : List Nat) : Except String Unit :=
  if data.length < 4 then Except.error "struct.error"
  else if u16BE data 2 = 22 then
    if data.length < 6 then Except.error "struct.error"
    else if data.getD 5 0 = COTP.CONNECT_CONFIRM then Except.ok ()
    else Except.error "Failed to perform ISO connect"
  else Except.error "Invalid PDU"

/-! ### Definitions: tags (tag.py) and write-area reply parsing -/

/-- Values decoded from or written to PLC memory (the dynamically typed
value slot of the Python Tag record). -/
inductive PlcVal where
  | bool (b : Bool)
  | nat (n : Nat)
  | int (i : Int)
  | bytes (bs : List Nat)
  | str (s : String)
  | dt (d : PyDateTime)
deriving DecidableEq

/-- The Tag record (tag.py lines 12-18).  The Python defaults are the empty
strings, value None, size 0 and error the empty string; the type slot holds
a DataType code.  The error slot distinguishes None from the empty string,
hence Option String. -/
structure Tag where
  name : String := ""
  address : String := ""
  value : Option PlcVal := none
  size : Nat := 0
  type : Nat := 0
  error : Option String := some ""
deriving DecidableEq

/-- Tag.__bool__ (tag.py lines 21-26): true exactly when value is not None
and error is None. -/
def tagBool (t : Tag) : Bool := t.value.isSome && t.error.isNone

/-- Modelled from the spec: src/ does not include pystep7/exceptions.py, so
the message of str(ReturnCode(code)) is taken from the spec error taxonomy
(section 7: 0x01 hardware, 0x03 access denied, 0x05 invalid address, 0x06
datatype unsupported, 0x07 datatype inconsistent, 0x0A object missing).
Only its non-emptiness matters to the theorems below. -/
def returnCodeStr (c : Nat) : String :=
  if c = 0x01 then "Hardware error"
  else if c = 0x03 then "Accessing object not allowed"
  else if c = 0x05 then "Invalid address"
  else if c = 0x06 then "Datatype not supported"
  else if c = 0x07 then "Datatype inconsistent"
  else if c = 0x0A then "Object does not exist"
  else "Return code error"

/-- The sentinel placed on every tag at the top of the write_area item loop
(Client.py line 1455). -/
def write_area_mark_not_sent (t : Tag) : Tag := { t with error := some "Not Sent" }

/-- The per-item return-code parsing of write_area (Client.py lines
1599-1618).  It walks the pairs of the submitted item and the result slot
for that item: when the item is not a STRING, has a value and the result
slot still carries the empty-string error, one return-code byte is consumed
and the error is set from it (the empty string on SUCCESS); otherwise the
result slot is passed through and no byte is consumed. -/
def write_area_parse_step (data : List Nat) : Nat → List (Tag × Tag) → List Tag
  | _, [] => []
  | data_offset, (item, res) :: rest =>
    if item.type ≠ DataType.STRING ∧ item.value ≠ none ∧ res.error = some "" then
      (if data.getD data_offset 0 ≠ ReturnCode.SUCCESS then
        { res with error := some (returnCodeStr (data.getD data_offset 0)) }
      else
        { res with error := some "" }) ::
        write_area_parse_step data (data_offset + 1) rest
    else
      res :: write_area_parse_step data data_offset rest

/-! ### Definitions: the STRING read path of read_area -/

/-- Outcome of the STRING branch of read_area: whether a second raw read was
issued and with which byte offset and element count, plus the final value
bytes and recorded size. -/
structure StringReadResult where
  secondRead : Option (Nat × Nat)
  value : List Nat
  size : Nat
deriving DecidableEq

/-- The STRING branch of read_area (Client.py lines 1278-1299).  The item is
served by a raw read of 128 bytes; the response is unpacked as maxLen,
actualLen and 126 data bytes (resp1 must be exactly 128 bytes, as the
theorem assumes).  When actualLen exceeds 126, remaining = actualLen - 126
bytes are fetched by a second raw read whose byte offset is the original
byte offset plus remaining (line 1292 adds remaining_elements, not 126, to
the offset) and appended; the value is the first actualLen bytes.  The
rebuilt textual address of the second read round-trips through the address
parser to the same numeric offset, so the offset is carried directly. -/
def read_area_string (offset : Nat) (resp1 resp2 : List Nat) : StringReadResult :=
  if 126 < resp1.getD 1 0 then
    { secondRead := some (offset + (resp1.getD 1 0 - 126), resp1.getD 1 0 - 126),
      value := (resp1.drop 2 ++ resp2).take (resp1.getD 1 0),
      size := resp1.getD 1 0 }
  else
    { secondRead := none,
      value := (resp1.drop 2).take (resp1.getD 1 0),
      size := resp1.getD 1 0 }

/-! ### Definitions: the BlockInfo cache of read_block_info -/

/-- BlockInfo (tag.py line 243), modelled with the fields that the cache and
the S7-300/400 block-size clamp consult; the remaining decoded fields carry
no behaviour in the claims treated here. -/
structure BlockInfo where
  type : String
  number : Nat
  mc7Length : Nat
deriving DecidableEq

/-- A Python dict keyed by block number, as an insertion-ordered
association list. -/
abbrev BlockDict := List (Nat × BlockInfo)

/-- The cache_data dict: block-type tag to inner dict. -/
abbrev Cache := List (String × BlockDict)

/-- Item assignment d[k] = v on a Python dict. -/
def dictSetBlock (d : BlockDict) (k : Nat) (v : BlockInfo) : BlockDict :=
  if (d.find? (fun q => q.1 == k)).isSome then
    d.map (fun q => if q.1 == k then (k, v) else q)
  else d ++ [(k, v)]

/-- cache.get(k) on the outer dict. -/
def cacheGet (c : Cache) (k : String) : Option BlockDict :=
  (c.find? (fun p => p.1 == k)).map (fun p => p.2)

/-- The cache update performed by read_block_info (Client.py lines 913-916):
create the inner dict for the block type when missing, then store the
record under its block number. -/
def read_block_info_cache_update (c : Cache) (info : BlockInfo) : Cache :=
  (if (cacheGet c info.type).isNone then c ++ [(info.type, [])] else c).map
    (fun p => if p.1 == info.type then (p.1, dictSetBlock p.2 info.number info) else p)

/-- A Client instance, modelling only the attribute slot relevant here:
cache_data is a class attribute (Client.py line 80) and no method ever
rebinds self.cache_data, so the per-instance slot stays empty and Python
attribute lookup falls through to the class attribute. -/
structure ClientInstance where
  inst_cache_data : Option Cache
deriving DecidableEq

/-- Python attribute lookup self.cache_data: the instance slot if assigned,
otherwise the class attribute. -/
def clientCacheView (class_cache : Cache) (c : ClientInstance) : Cache :=
  c.inst_cache_data.getD class_cache

/-- Effect of read_block_info on the class attribute: the dict obtained by
attribute lookup is mutated in place, which for instances that never
rebind the attribute (all of them, per the source) is the class-level
dict. -/
def read_block_info_effect (class_cache : Cache) (c : ClientInstance) (info : BlockInfo) :
    Cache :=
  read_block_info_cache_update (clientCacheView class_cache c) info

/-! ### Definitions: the batching loop of read_area -/

/-- One flushed Read-Variable request frame of read_area (Client.py lines
1350-1356): the declared item count (request byte 18), the declared
parameter length, the declared TPKT length, and the actual byte length of
the request buffer (19 header bytes plus the 12-byte descriptors that were
appended at line 1348). -/
structure ReadFrame where
  itemCount : Nat
  paramLen : Nat
  tpktLen : Nat
  bufLen : Nat
deriving DecidableEq

/-- The batching loop of read_area (Client.py lines 1263-1362) restricted to
plain (non-STRING, well-addressed) items, each contributing one 12-byte
descriptor.  After counting an item, total_pdu = 2 + item_count * 12; the
descriptor bytes are appended only while total_pdu + 2 is below the
negotiated PDU length (line 1313); the frame is flushed when total_pdu plus
one more 12-byte descriptor reaches the PDU length or the input is
exhausted (line 1350).  Arguments: remaining item count, current
item_count, current buffer length (the 19-byte header to start). -/
def read_area_split (pdu : Nat) : Nat → Nat → Nat → List ReadFrame
  | 0, _, _ => []
  | remaining + 1, item_count, buf =>
    if pdu ≤ (2 + (item_count + 1) * 12) + 12 ∨ remaining = 0 then
      { itemCount := item_count + 1,
        paramLen := 2 + (item_count + 1) * 12,
        tpktLen := 17 + (2 + (item_count + 1) * 12),
        bufLen := if (2 + (item_count + 1) * 12) + 2 < pdu then buf + 12 else buf } ::
        read_area_split pdu remaining 0 19
    else
      read_area_split pdu remaining (item_count + 1)
        (if (2 + (item_count + 1) * 12) + 2 < pdu then buf + 12 else buf)

/-- The request frames emitted by a read_area call over n plain items. -/
def read_area_frames (pdu n : Nat) : List ReadFrame := read_area_split pdu n 0 19

/-! ### Definitions: the fragment loop of read_szl -/

/-- The PDU-reference byte of a user-data reply (unpacked at offset 25,
Client.py line 677). -/
def szlPduRef (d : List Nat) : Nat := d.getD 25 0

/-- The last-data-unit byte of a user-data reply (offset 26). -/
def szlLastDataUnit (d : List Nat) : Nat := d.getD 26 0

/-- The 16-bit parameter error code of a user-data reply (offsets 27-28). -/
def szlParamErrorCode (d : List Nat) : Nat := u16BE d 27

/-- The data return code of a user-data reply (offset 29). -/
def szlReturnCode (d : List Nat) : Nat := d.getD 29 0

/-- The 16-bit data length field of a user-data reply (offsets 31-32). -/
def szlLengthField (d : List Nat) : Nat := u16BE d 31

/-- The append guard for fragments after the first (Client.py lines
697-700): no parameter error, SUCCESS return code, nonzero length. -/
def szlAppendOk (d : List Nat) : Prop :=
  szlParamErrorCode d = 0 ∧ szlReturnCode d = ReturnCode.SUCCESS ∧ 0 < szlLengthField d

instance (d : List Nat) : Decidable (szlAppendOk d) := by
  unfold szlAppendOk; infer_instance

/-- The fragment loop of read_szl (Client.py lines 680-701).  The replies
the transport delivers are passed as a list; none models the struct error
raised when a reply shorter than 33 bytes is unpacked, or the transport
yielding nothing while more fragments are expected.  While the
last-data-unit byte differs from LastDataUnit.YES, the sequence number
(previous PDU reference plus one, recorded in the second component) is
written into a Next request, the next reply is consumed, and its payload
(the bytes from offset 33 on) is appended when the guard holds. -/
def szlLoop (acc : List Nat) (lastDataUnit pduRef : Nat) (seqs : List Nat) :
    List (List Nat) → Option (List Nat × List Nat)
  | [] => if lastDataUnit = LastDataUnit.YES then some (acc, seqs) else none
  | r :: rs =>
    if lastDataUnit = LastDataUnit.YES then some (acc, seqs)
    else if r.length < 33 then none
    else
      szlLoop (if szlAppendOk r then acc ++ r.drop 33 else acc)
        (szlLastDataUnit r) (szlPduRef r) (seqs ++ [pduRef + 1]) rs

/-- read_szl (Client.py lines 650-703) from the first reply on: when the
TPKT length field of the first reply exceeds 32, its header fields are
unpacked at offset 25 (a struct error below 33 bytes), its payload from
offset 33 is taken unconditionally, and the fragment loop runs; otherwise
the raw first reply is returned. -/
def read_szl (first : List Nat) (nexts : List (List Nat)) :
    Option (List Nat × List Nat) :=
  if 32 < u16BE first 2 then
    if first.length < 33 then none
    else szlLoop (first.drop 33) (szlLastDataUnit first) (szlPduRef first) [] nexts
  else some (first, [])

/-! ### Theorems -/

/-- The fragment loop on a healthy chain of replies: every reply is at
least 33 bytes and passes the append guard, every reply but the last
carries last-data-unit 1 and the last carries 0.  The loop returns the
accumulated payloads in order together with the sequence numbers sent, one
per consumed reply, each the preceding PDU reference plus one. -/
theorem szlLoop_healthy (nexts : List (List Nat)) :
    ∀ acc pduRef seqs,
      (∀ r ∈ nexts, 33 ≤ r.length ∧ szlAppendOk r) →
      (∀ r ∈ nexts.dropLast, szlLastDataUnit r = 1) →
      ∀ hne : nexts ≠ [],
        szlLastDataUnit (nexts.getLast hne) = 0 →
        szlLoop acc 1 pduRef seqs nexts =
          some (acc ++ (nexts.map (fun r => r.drop 33)).flatten,
            seqs ++ (pduRef :: nexts.dropLast.map szlPduRef).map (fun p => p + 1)) := by
  induction nexts with
  | nil =>
    intro acc pduRef seqs _ _ hne
    exact absurd rfl hne
  | cons r rs ih =>
    intro acc pduRef seqs hwf hmid hne hlast
    have hr := hwf r (List.mem_cons_self r rs)
    unfold szlLoop
    rw [if_neg (by simp [LastDataUnit.YES]), if_neg (by omega), if_pos hr.2]
    cases rs with
    | nil =>
      have hr0 : szlLastDataUnit r = 0 := by
        simpa [List.getLast] using hlast
      unfold szlLoop
      rw [if_pos (by simpa [LastDataUnit.YES] using hr0)]
      simp
    | cons s ss =>
      have hrs_ne : (s :: ss : List (List Nat)) ≠ [] := List.cons_ne_nil s ss
      have hmid_r : szlLastDataUnit r = 1 := by
        apply hmid
        rw [List.dropLast_cons_of_ne_nil hrs_ne]
        exact List.mem_cons_self r _
      have hlast_rs : szlLastDataUnit ((s :: ss).getLast hrs_ne) = 0 := by
        rw [← List.getLast_cons hrs_ne]
        exact hlast
      have hwf_rs : ∀ x ∈ (s :: ss : List (List Nat)), 33 ≤ x.length ∧ szlAppendOk x :=
        fun x hx => hwf x (List.mem_cons_of_mem r hx)
      have hmid_rs : ∀ x ∈ (s :: ss : List (List Nat)).dropLast, szlLastDataUnit x = 1 := by
        intro x hx
        apply hmid
        rw [List.dropLast_cons_of_ne_nil hrs_ne]
        exact List.mem_cons_of_mem r hx
      rw [hmid_r]
      rw [ih (acc ++ r.drop 33) (szlPduRef r) (seqs ++ [pduRef + 1]) hwf_rs hmid_rs
        hrs_ne hlast_rs]
      rw [List.dropLast_cons_of_ne_nil hrs_ne]
      simp

/-- The batching loop emits at least one frame when items remain. -/
theorem read_area_split_ne_nil (pdu : Nat) :
    ∀ r, 1 ≤ r → ∀ c b, read_area_split pdu r c b ≠ [] := by
  intro r
  induction r with
  | zero => omega
  | succ m ih =>
    intro _ c b
    unfold read_area_split
    split
    · exact List.cons_ne_nil _ _
    · rename_i h
      have hm : 1 ≤ m := by omega
      exact ih hm (c + 1) _

/-- The item counts of the emitted frames sum to the carried count plus the
remaining items. -/
theorem read_area_split_sum (pdu : Nat) :
    ∀ r, 1 ≤ r → ∀ c b,
      ((read_area_split pdu r c b).map ReadFrame.itemCount).sum = c + r := by
  intro r
  induction r with
  | zero => omega
  | succ m ih =>
    intro _ c b
    unfold read_area_split
    split
    · rcases Nat.eq_zero_or_pos m with hm | hm
      · subst hm
        simp [read_area_split]
      · have := ih hm 0 19
        simp only [List.map_cons, List.sum_cons, this]
        omega
    · rename_i h
      have hm : 1 ≤ m := by omega
      have := ih hm (c + 1) (if (2 + (c + 1) * 12) + 2 < pdu then b + 12 else b)
      rw [this]
      omega

/-- Shape and size bound of every emitted frame, under the invariant that
the carried count is zero or still below the flush threshold. -/
theorem read_area_split_frames (pdu : Nat) (hpdu : 15 ≤ pdu) :
    ∀ r c b, (c = 0 ∨ 14 + 12 * c < pdu) →
      ∀ f ∈ read_area_split pdu r c b,
        f.paramLen = 2 + 12 * f.itemCount ∧ f.tpktLen = 17 + f.paramLen ∧
          f.tpktLen < pdu + 17 := by
  intro r
  induction r with
  | zero =>
    intro c b _ f hf
    simp [read_area_split] at hf
  | succ m ih =>
    intro c b hinv f hf
    unfold read_area_split at hf
    split at hf
    · rcases List.mem_cons.mp hf with hhd | htl
      · subst hhd
        refine ⟨?_, ?_, ?_⟩
        · show 2 + (c + 1) * 12 = 2 + 12 * (c + 1)
          omega
        · rfl
        · show 17 + (2 + (c + 1) * 12) < pdu + 17
          rcases hinv with h0 | hlt
          · subst h0; omega
          · omega
      · exact ih 0 19 (Or.inl rfl) f htl
    · rename_i h
      have hlt : 14 + 12 * (c + 1) < pdu := by omega
      exact ih (c + 1) _ (Or.inr hlt) f hf

/-- Every frame other than the last was flushed because one more descriptor
would reach the PDU length. -/
theorem read_area_split_dropLast (pdu : Nat) :
    ∀ r c b, ∀ f ∈ (read_area_split pdu r c b).dropLast,
      pdu ≤ 14 + 12 * f.itemCount := by
  intro r
  induction r with
  | zero =>
    intro c b f hf
    simp [read_area_split] at hf
  | succ m ih =>
    intro c b f hf
    unfold read_area_split at hf
    split at hf
    · rename_i hcond
      rcases Nat.eq_zero_or_pos m with hm | hm
      · subst hm
        simp [read_area_split] at hf
      · rw [List.dropLast_cons_of_ne_nil (read_area_split_ne_nil pdu m hm 0 19)] at hf
        rcases List.mem_cons.mp hf with hhd | htl
        · subst hhd
          simp only
          rcases hcond with hle | hm0
          · omega
          · omega
        · exact ih 0 19 f htl
    · exact ih (c + 1) _ f hf

/-- C1.  The round trip claimed by the spec fails on the code.  For the
COUNTER value 1 (inside the range 0..999 named by the claim), set_counter
produces 0x0100, which travels the wire as the bytes 01 00, and get_counter
then applies bcd_to_byte to the whole 16-bit word 0x0100 instead of its low
byte, returning 16001 instead of 1.  This theorem evaluates the embedded
encode and decode at that failing input. -/
theorem c1_counter_roundtrip_fails_eval :
    get_counter (set_counter 1) = 16001 ∧
    decode_counter (encode_counter 1) 0 = 16001 ∧
    encode_counter 1 = [1, 0] ∧ (16001 : Int) ≠ 1 := by decide

/-- C8 counterexample: set_s5_time applied to 12340 does not produce the
output bytes 12 34 stated by the claim. -/
theorem c8_set_s5_time_counterexample : set_s5_time 12340 ≠ [0x12, 0x34] := by decide

/-- C8 amended: encoding the S5TIME value 12340 ms produces the bytes 11 23.
The value divided by 10 is 1234, which exceeds three decimal digits, so it
is divided by ten once more and the decade-multiplier digit becomes 1,
giving the BCD word 1123; those bytes decode back to 12300 ms. -/
theorem c8_set_s5_time_amended :
    set_s5_time 12340 = [0x11, 0x23] ∧ get_s5_time [0x11, 0x23] 0 = 12300 := by decide

/-- C7.  An 8-byte DATETIME buffer whose BCD fields fail the calendar range
checks decodes to the fallback 1990-01-01 00:00:00, and on valid buffers
the BCD year byte is windowed: a BCD value below 90 gives 2000 plus the
value, one from 90 to 99 gives 1900 plus the value. -/
theorem c7_datetime_fallback_and_window (buffer : List Nat) (_hlen : buffer.length = 8) :
    (¬ pyDateTimeValid (get_datetime_fields buffer 0) →
        get_datetime buffer 0 = ⟨1990, 1, 1, 0, 0, 0, 0⟩) ∧
    (pyDateTimeValid (get_datetime_fields buffer 0) →
        (bcd_to_byte ((buffer.getD 0 0 : Nat) : Int) < 90 →
            (get_datetime buffer 0).year = 2000 + bcd_to_byte ((buffer.getD 0 0 : Nat) : Int)) ∧
        (90 ≤ bcd_to_byte ((buffer.getD 0 0 : Nat) : Int) →
            bcd_to_byte ((buffer.getD 0 0 : Nat) : Int) ≤ 99 →
            (get_datetime buffer 0).year = 1900 + bcd_to_byte ((buffer.getD 0 0 : Nat) : Int))) := by
  constructor
  · intro hinv
    unfold get_datetime
    rw [if_neg hinv]
  · intro hval
    have hdt : get_datetime buffer 0 = get_datetime_fields buffer 0 := by
      unfold get_datetime
      rw [if_pos hval]
    constructor
    · intro hlt
      rw [hdt]
      unfold get_datetime_fields
      simp only [Nat.add_zero]
      rw [if_pos (by simpa using hlt)]
      omega
    · intro hge hle
      rw [hdt]
      unfold get_datetime_fields
      simp only [Nat.add_zero]
      rw [if_neg (by omega)]
      omega

/-- C7 witness: the concrete buffer 19 93 12 25 08 30 45 67 from the spec
scenario S4 has month BCD 93, fails the calendar checks and decodes to the
fallback value. -/
theorem c7_datetime_fallback_and_window_witness :
    ([0x19, 0x93, 0x12, 0x25, 0x08, 0x30, 0x45, 0x67] : List Nat).length = 8 ∧
    ¬ pyDateTimeValid (get_datetime_fields [0x19, 0x93, 0x12, 0x25, 0x08, 0x30, 0x45, 0x67] 0) ∧
    get_datetime [0x19, 0x93, 0x12, 0x25, 0x08, 0x30, 0x45, 0x67] 0 = ⟨1990, 1, 1, 0, 0, 0, 0⟩ :=
  ⟨by decide, by decide,
    (c7_datetime_fallback_and_window [0x19, 0x93, 0x12, 0x25, 0x08, 0x30, 0x45, 0x67]
      (by decide)).1 (by decide)⟩

/-- C5.  With LocalTSAP 0x0100 and RemoteTSAP 0x0102 the emitted connection
request is exactly the 22 bytes stated by the claim, and the reply handler
reaches the ISO-connected state if and only if the reply is at least 6
bytes long, its TPKT length field reads 22 and its COTP PDU-type byte at
offset 5 is 0xD0; every other reply raises. -/
theorem c5_iso_connect_frame_and_state :
    iso_connect_request 0x0100 0x0102 =
      [0x03, 0x00, 0x00, 0x16, 0x11, 0xE0, 0x00, 0x00, 0x00, 0x01, 0x00,
       0xC0, 0x01, 0x0A, 0xC1, 0x02, 0x01, 0x00, 0xC2, 0x02, 0x01, 0x02] ∧
    ∀ data : List Nat,
      iso_connect_response data = Except.ok () ↔
        6 ≤ data.length ∧ u16BE data 2 = 22 ∧ data.getD 5 0 = 0xD0 := by
  refine ⟨by decide, ?_⟩
  intro data
  unfold iso_connect_response
  by_cases h4 : data.length < 4
  · rw [if_pos h4]
    simp only [false_iff, reduceCtorEq]
    intro hc
    omega
  · rw [if_neg h4]
    by_cases h22 : u16BE data 2 = 22
    · rw [if_pos h22]
      by_cases h6 : data.length < 6
      · rw [if_pos h6]
        simp only [false_iff, reduceCtorEq]
        intro hc
        omega
      · rw [if_neg h6]
        by_cases hcc : data.getD 5 0 = COTP.CONNECT_CONFIRM
        · rw [if_pos hcc]
          simp only [true_iff]
          exact ⟨by omega, h22, hcc⟩
        · rw [if_neg hcc]
          simp only [false_iff, reduceCtorEq]
          intro hc
          exact hcc hc.2.2
    · rw [if_neg h22]
      simp only [false_iff, reduceCtorEq]
      intro hc
      exact h22 hc.2.1

/-- C10.  A Tag is truthy exactly when its value slot is populated and its
error slot is None; in particular a tag whose error slot holds the default
empty string is falsy even with a populated value. -/
theorem c10_tag_bool (t : Tag) :
    (tagBool t = true ↔ t.value.isSome = true ∧ t.error = none) ∧
    ∀ v : PlcVal, tagBool { t with value := some v, error := some "" } = false := by
  constructor
  · simp [tagBool, Option.isNone_iff_eq_none]
  · intro v
    simp [tagBool]

/-- C4.  Evaluation of the embedded write_area reply parser at the failing
input of the code-bug report: the result slot of every batched item carries
the sentinel error "Not Sent" (written at Client.py line 1455), so the
parse guard, which requires the empty-string error, skips the item and the
per-item return code 0x0A delivered at data offset 21 is never recorded on
the tag. -/
theorem c4_write_area_return_code_not_recorded :
    write_area_parse_step (List.replicate 21 0 ++ [0x0A]) 21
        [(⟨"", "DB1.DBW0", some (PlcVal.int 5), 2, DataType.INT, some ""⟩,
          write_area_mark_not_sent
            ⟨"", "DB1.DBW0", some (PlcVal.int 5), 2, DataType.INT, some ""⟩)] =
      [write_area_mark_not_sent
        ⟨"", "DB1.DBW0", some (PlcVal.int 5), 2, DataType.INT, some ""⟩] ∧
    (write_area_mark_not_sent
        ⟨"", "DB1.DBW0", some (PlcVal.int 5), 2, DataType.INT, some ""⟩).error =
      some "Not Sent" ∧
    (List.replicate 21 0 ++ [0x0A]).getD 21 0 = 0x0A ∧
    (0x0A : Nat) ≠ ReturnCode.SUCCESS := by
  refine ⟨?_, by decide, by decide, by decide⟩
  unfold write_area_parse_step
  rw [if_neg (by simp [write_area_mark_not_sent, DataType.STRING, DataType.INT])]
  rfl

/-- C6 counterexample: for a first response that reads actualLen 200 at an
item with byte offset 0, the code issues the second raw read at byte offset
0 + (200 - 126) = 74, not at offset + 126 = 126 as the claim states. -/
theorem c6_string_second_offset_counterexample :
    (read_area_string 0 (0xFE :: 200 :: List.replicate 126 0x41) []).secondRead =
      some (74, 74) ∧ (74 : Nat) ≠ 126 := by
  constructor
  · rfl
  · decide

/-- C6 amended: a STRING item is excluded from the batch and fetched by a
raw read of 128 bytes parsed as maxLen, actualLen and 126 data bytes;
whenever actualLen exceeds 126, a second raw read of actualLen - 126 bytes
is issued at byte offset offset + (actualLen - 126), and the final value is
the first actualLen bytes of the 126 data bytes followed by the second
response; when the second response has the requested length the value has
exactly actualLen bytes.  For actualLen at most 126 no second read is
issued. -/
theorem c6_string_two_phase (offset : Nat) (resp1 resp2 : List Nat)
    (h1 : resp1.length = 128) :
    (126 < resp1.getD 1 0 →
        (read_area_string offset resp1 resp2).secondRead =
          some (offset + (resp1.getD 1 0 - 126), resp1.getD 1 0 - 126) ∧
        (read_area_string offset resp1 resp2).value =
          (resp1.drop 2 ++ resp2).take (resp1.getD 1 0) ∧
        (resp2.length = resp1.getD 1 0 - 126 →
          (read_area_string offset resp1 resp2).value.length = resp1.getD 1 0)) ∧
    (resp1.getD 1 0 ≤ 126 →
        (read_area_string offset resp1 resp2).secondRead = none ∧
        (read_area_string offset resp1 resp2).value = (resp1.drop 2).take (resp1.getD 1 0)) := by
  constructor
  · intro hgt
    unfold read_area_string
    rw [if_pos hgt]
    refine ⟨rfl, rfl, ?_⟩
    intro h2
    simp only [List.length_take, List.length_append, List.length_drop, h1, h2]
    omega
  · intro hle
    unfold read_area_string
    rw [if_neg (by omega)]
    exact ⟨rfl, rfl⟩

/-- C6 witness: the amended statement applied to a concrete first response
with actualLen 200 at byte offset 0 and a 74-byte second response. -/
theorem c6_string_two_phase_witness :
    (0xFE :: 200 :: List.replicate 126 0x41 : List Nat).length = 128 ∧
    ((126 < (0xFE :: 200 :: List.replicate 126 0x41 : List Nat).getD 1 0 →
        (read_area_string 0 (0xFE :: 200 :: List.replicate 126 0x41)
            (List.replicate 74 0x42)).secondRead =
          some (0 + ((0xFE :: 200 :: List.replicate 126 0x41 : List Nat).getD 1 0 - 126),
            (0xFE :: 200 :: List.replicate 126 0x41 : List Nat).getD 1 0 - 126) ∧
        (read_area_string 0 (0xFE :: 200 :: List.replicate 126 0x41)
            (List.replicate 74 0x42)).value =
          ((0xFE :: 200 :: List.replicate 126 0x41 : List Nat).drop 2 ++
            List.replicate 74 0x42).take
            ((0xFE :: 200 :: List.replicate 126 0x41 : List Nat).getD 1 0) ∧
        ((List.replicate 74 0x42 : List Nat).length =
            (0xFE :: 200 :: List.replicate 126 0x41 : List Nat).getD 1 0 - 126 →
          (read_area_string 0 (0xFE :: 200 :: List.replicate 126 0x41)
              (List.replicate 74 0x42)).value.length =
            (0xFE :: 200 :: List.replicate 126 0x41 : List Nat).getD 1 0)) ∧
      ((0xFE :: 200 :: List.replicate 126 0x41 : List Nat).getD 1 0 ≤ 126 →
        (read_area_string 0 (0xFE :: 200 :: List.replicate 126 0x41)
            (List.replicate 74 0x42)).secondRead = none ∧
        (read_area_string 0 (0xFE :: 200 :: List.replicate 126 0x41)
            (List.replicate 74 0x42)).value =
          ((0xFE :: 200 :: List.replicate 126 0x41 : List Nat).drop 2).take
            ((0xFE :: 200 :: List.replicate 126 0x41 : List Nat).getD 1 0))) :=
  ⟨by decide, c6_string_two_phase 0 (0xFE :: 200 :: List.replicate 126 0x41)
      (List.replicate 74 0x42) (by decide)⟩

/-- C9 counterexample: with the shared class attribute starting empty, a
read_block_info performed through connection A makes the entry visible in
the cache view of the distinct connection B, so the claim that the
operation leaves the cache of B unchanged fails, as does the claim that a
fresh connection starts with an empty cache. -/
theorem c9_cache_shared_counterexample :
    clientCacheView (read_block_info_effect [] ⟨none⟩ ⟨"DB", 1, 64⟩) ⟨none⟩ ≠
      clientCacheView [] ⟨none⟩ := by decide

/-- C9 amended: cache_data is a class attribute shared by every Client
instance of the process.  An update made through any connection whose
instance slot is unassigned (which the source guarantees for all of them)
is observed by every other such connection, and a freshly created
connection sees the current shared cache rather than an empty one. -/
theorem c9_cache_shared_amended (class_cache : Cache) (A B : ClientInstance)
    (info : BlockInfo) (hA : A.inst_cache_data = none) (hB : B.inst_cache_data = none) :
    clientCacheView (read_block_info_effect class_cache A info) B =
      read_block_info_cache_update class_cache info ∧
    clientCacheView class_cache ⟨none⟩ = class_cache := by
  constructor
  · simp [clientCacheView, read_block_info_effect, hA, hB]
  · rfl

/-- C9 witness: the amended statement applied to a concrete shared cache
and two fresh connections. -/
theorem c9_cache_shared_amended_witness :
    (⟨none⟩ : ClientInstance).inst_cache_data = none ∧
    (clientCacheView (read_block_info_effect [] ⟨none⟩ ⟨"DB", 1, 64⟩) ⟨none⟩ =
        read_block_info_cache_update [] ⟨"DB", 1, 64⟩ ∧
      clientCacheView ([] : Cache) ⟨none⟩ = []) :=
  ⟨rfl, c9_cache_shared_amended [] ⟨none⟩ ⟨none⟩ ⟨"DB", 1, 64⟩ rfl rfl⟩

/-- C2 counterexample: with the negotiated PDU length 240, a batch of 19
plain items is flushed into a single frame whose declared (and actual) TPKT
length is 247 bytes, which exceeds the negotiated PDU length, refuting the
claim that no single emitted request frame exceeds it. -/
theorem c2_frame_exceeds_pdu_counterexample :
    (read_area_frames 240 19).map ReadFrame.tpktLen = [247] ∧
    (read_area_frames 240 19).map ReadFrame.bufLen = [247] ∧ 240 < 247 := by decide

/-- C2 amended: read_area flushes a frame exactly when the parameter section
plus one more 12-byte descriptor would reach the negotiated PDU length
(2 + 12 * itemCount + 12 at or above the PDU length, as every non-final
frame witnesses) or the input is exhausted; each flushed frame declares
parameter-length 2 + 12 * itemCount and TPKT length 17 + parameter-length,
the item counts over all frames sum to the input length, and each frame
stays below pduLength + 17 — so a frame can exceed the negotiated PDU
length itself by up to 16 bytes, since the flush test compares the
parameter length rather than the whole frame. -/
theorem c2_read_area_split_amended (pdu n : Nat) (hpdu : 15 ≤ pdu) :
    (∀ f ∈ read_area_frames pdu n,
        f.paramLen = 2 + 12 * f.itemCount ∧ f.tpktLen = 17 + f.paramLen ∧
          f.tpktLen < pdu + 17) ∧
    ((read_area_frames pdu n).map ReadFrame.itemCount).sum = n ∧
    (∀ f ∈ (read_area_frames pdu n).dropLast, pdu ≤ 14 + 12 * f.itemCount) := by
  refine ⟨read_area_split_frames pdu hpdu n 0 19 (Or.inl rfl), ?_,
    read_area_split_dropLast pdu n 0 19⟩
  cases n with
  | zero => simp [read_area_frames, read_area_split]
  | succ m =>
    have := read_area_split_sum pdu (m + 1) (by omega) 0 19
    simpa [read_area_frames] using this

/-- C2 witness: the amended statement applied to the negotiated PDU length
240 and a batch of 19 items. -/
theorem c2_read_area_split_amended_witness :
    (15 : Nat) ≤ 240 ∧
    ((∀ f ∈ read_area_frames 240 19,
        f.paramLen = 2 + 12 * f.itemCount ∧ f.tpktLen = 17 + f.paramLen ∧
          f.tpktLen < 240 + 17) ∧
      ((read_area_frames 240 19).map ReadFrame.itemCount).sum = 19 ∧
      (∀ f ∈ (read_area_frames 240 19).dropLast, 240 ≤ 14 + 12 * f.itemCount)) :=
  ⟨by decide, c2_read_area_split_amended 240 19 (by decide)⟩

/-- C3.  For a healthy SZL exchange whose fragments are the first reply
followed by the listed Next replies — each at least 33 bytes, each Next
reply passing the append guard, every fragment but the last carrying
last-data-unit 1 and the last carrying 0 — read_szl returns the
concatenation of the fragment payloads (the bytes from offset 33 of each
reply) in order, the sequence number written into each Next request is the
preceding PDU reference plus one, and the length of the returned buffer is
the sum of the fragment payload lengths. -/
theorem c3_read_szl_reassembly (first : List Nat) (nexts : List (List Nat))
    (htpkt : 32 < u16BE first 2) (hfirst : 33 ≤ first.length)
    (hwf : ∀ r ∈ nexts, 33 ≤ r.length ∧ szlAppendOk r)
    (hchain : ∀ r ∈ (first :: nexts).dropLast, szlLastDataUnit r = 1)
    (hlast : szlLastDataUnit ((first :: nexts).getLast (List.cons_ne_nil first nexts)) = 0) :
    read_szl first nexts =
      some (first.drop 33 ++ (nexts.map (fun r => r.drop 33)).flatten,
        ((first :: nexts).dropLast.map szlPduRef).map (fun p => p + 1)) ∧
    (first.drop 33 ++ (nexts.map (fun r => r.drop 33)).flatten).length =
      (first.length - 33) + (nexts.map (fun r => r.length - 33)).sum := by
  constructor
  · unfold read_szl
    rw [if_pos htpkt, if_neg (by omega)]
    cases nexts with
    | nil =>
      have h0 : szlLastDataUnit first = 0 := by
        simpa [List.getLast] using hlast
      rw [h0]
      unfold szlLoop
      simp [LastDataUnit.YES]
    | cons s ss =>
      have hne : (s :: ss : List (List Nat)) ≠ [] := List.cons_ne_nil s ss
      have h1 : szlLastDataUnit first = 1 := by
        apply hchain
        rw [List.dropLast_cons_of_ne_nil hne]
        exact List.mem_cons_self first _
      have hmid : ∀ r ∈ (s :: ss : List (List Nat)).dropLast, szlLastDataUnit r = 1 := by
        intro r hr
        apply hchain
        rw [List.dropLast_cons_of_ne_nil hne]
        exact List.mem_cons_of_mem first hr
      have hlast2 : szlLastDataUnit ((s :: ss).getLast hne) = 0 := by
        rw [← List.getLast_cons hne]
        exact hlast
      rw [h1, szlLoop_healthy (s :: ss) (first.drop 33) (szlPduRef first) [] hwf hmid
        hne hlast2]
      rw [List.dropLast_cons_of_ne_nil hne]
      simp
  · simp [List.length_flatten, List.map_map, Function.comp_def]

/-- C3 witness: a concrete two-fragment exchange.  The first reply carries
a two-byte payload AA BB with last-data-unit 1 and PDU reference 0; the
Next reply carries the one-byte payload CC with last-data-unit 0.  The
reassembled buffer is AA BB CC (length 3 = 2 + 1) and the single Next
request carried sequence number 1. -/
theorem c3_read_szl_reassembly_witness :
    32 < u16BE ([3, 0, 0, 35] ++ List.replicate 21 0 ++
        [0, 1, 0, 0, 255, 9, 0, 2, 0xAA, 0xBB]) 2 ∧
    read_szl ([3, 0, 0, 35] ++ List.replicate 21 0 ++ [0, 1, 0, 0, 255, 9, 0, 2, 0xAA, 0xBB])
        [[3, 0, 0, 34] ++ List.replicate 21 0 ++ [1, 0, 0, 0, 255, 9, 0, 1, 0xCC]] =
      some ([0xAA, 0xBB, 0xCC], [1]) :=
  ⟨by decide, by
    have h := c3_read_szl_reassembly
      ([3, 0, 0, 35] ++ List.replicate 21 0 ++ [0, 1, 0, 0, 255, 9, 0, 2, 0xAA, 0xBB])
      [[3, 0, 0, 34] ++ List.replicate 21 0 ++ [1, 0, 0, 0, 255, 9, 0, 1, 0xCC]]
      (by decide) (by decide) (by decide) (by decide) (by decide)
    exact h.1.trans (by decide)⟩

end PyStep7
